import Mathlib

/-
Verification of the spdl download orchestrator and song round-trip logic.

The development shallowly embeds the code of
  src/spotdl/download/downloader.py   (class Downloader)
  src/spotdl/search/songObj.py        (class SongObj)
against its natural-language specification.  External collaborators that are
imported by the downloader but whose code is not part of this repository
(spotdl.utils.*, spotdl.providers.*, yt_dlp post-processors) are abstracted
as oracle fields of an environment record `Env`; the control flow, branch
structure and state updates of `Downloader.search_and_download` and
`Downloader.download_multiple_songs` are translated statement by statement.
-/

/-- A file path, split into stem and extension, mirroring pathlib's
stem/suffix view of a path.  `create_file_name(song, output, format)`
always produces a path whose suffix is the configured format, so the
extension field carries the suffix without its leading dot. -/
structure FPath where
  stem : String
  ext : String
deriving DecidableEq, Repr

/-- `Path.with_suffix(ext)`: replace the extension. -/
def FPath.withSuffix (p : FPath) (newExt : String) : FPath :=
  ⟨p.stem, newExt⟩

/-- `str(path)`: render the path. -/
def FPath.toStr (p : FPath) : String :=
  p.stem ++ "." ++ p.ext

/-- Content identifier and modification time of one file on disk. -/
structure FileInfo where
  content : Nat
  mtime : Nat
deriving DecidableEq, Repr

/-- First-match lookup in an association list of files. -/
def lookupFiles : List (FPath × FileInfo) → FPath → Option FileInfo
  | [], _ => none
  | e :: rest, p => if e.1 = p then some e.2 else lookupFiles rest p

/-- The file system visible to the downloader: existing files with their
content and modification time. -/
structure FS where
  files : List (FPath × FileInfo)
deriving DecidableEq, Repr

def FS.lookup (fs : FS) (p : FPath) : Option FileInfo :=
  lookupFiles fs.files p

/-- `path.exists()`. -/
def FS.existsFile (fs : FS) (p : FPath) : Bool :=
  (fs.lookup p).isSome

/-- Remove all entries at a given path from the file listing. -/
def removeFile : List (FPath × FileInfo) → FPath → List (FPath × FileInfo)
  | [], _ => []
  | e :: rest, p => if e.1 = p then removeFile rest p else e :: removeFile rest p

/-- `path.unlink()`: remove the file. -/
def FS.unlink (fs : FS) (p : FPath) : FS :=
  ⟨removeFile fs.files p⟩

/-- Create or overwrite a file. -/
def FS.write (fs : FS) (p : FPath) (info : FileInfo) : FS :=
  ⟨(p, info) :: (fs.unlink p).files⟩

/-- `src.replace(dst)`: move src onto dst, dst takes src's content.
The callers below only invoke it on files that exist. -/
def FS.replace (fs : FS) (src dst : FPath) : FS :=
  match fs.lookup src with
  | some info => (fs.unlink src).write dst info
  | none => fs

theorem lookupFiles_removeFile (l : List (FPath × FileInfo)) (p q : FPath) :
    lookupFiles (removeFile l p) q = if q = p then none else lookupFiles l q := by
  induction l with
  | nil => by_cases h : q = p <;> simp [removeFile, lookupFiles, h]
  | cons e rest ih =>
    by_cases hep : e.1 = p
    · by_cases hqp : q = p
      · subst hqp
        simp [removeFile, hep, ih]
      · have hne : ¬ e.1 = q := by intro h; exact hqp (h.symm.trans hep)
        have hpq : ¬ p = q := fun hh => hqp hh.symm
        simp [removeFile, hep, lookupFiles, hne, hpq, ih, hqp]
    · by_cases heq : e.1 = q
      · have hqp : ¬ q = p := by intro h; exact hep (heq.trans h)
        simp [removeFile, hep, lookupFiles, heq, ih, hqp]
      · simp [removeFile, hep, lookupFiles, heq, ih]

theorem FS.lookup_unlink (fs : FS) (p q : FPath) :
    (fs.unlink p).lookup q = if q = p then none else fs.lookup q := by
  simp [FS.unlink, FS.lookup, lookupFiles_removeFile]

theorem FS.lookup_write (fs : FS) (p q : FPath) (info : FileInfo) :
    (fs.write p info).lookup q = if q = p then some info else fs.lookup q := by
  by_cases h : q = p
  · subst h; simp [FS.write, FS.lookup, lookupFiles]
  · have h2 : ¬ p = q := fun hh => h hh.symm
    simp [FS.write, FS.unlink, FS.lookup, lookupFiles, h, h2, lookupFiles_removeFile]

theorem FS.existsFile_unlink (fs : FS) (p q : FPath) :
    (fs.unlink p).existsFile q = if q = p then false else fs.existsFile q := by
  by_cases h : q = p <;> simp [FS.existsFile, FS.lookup_unlink, h]

theorem FS.existsFile_write (fs : FS) (p q : FPath) (info : FileInfo) :
    (fs.write p info).existsFile q = if q = p then true else fs.existsFile q := by
  by_cases h : q = p <;> simp [FS.existsFile, FS.lookup_write, h]

/-- The fields of `spotdl.types.Song` that `Downloader` reads or writes:
`url` (the stable Spotify identifier), `name` (None for placeholder songs
from tracking files), `artists`, `download_url`, `lyrics`, `display_name`,
and the serialized record `json` used by the results manifest (kept as an
opaque payload). -/
structure Song where
  url : String
  name : Option String
  artists : List String
  downloadUrl : Option String
  lyrics : Option String
  displayName : String
  json : String
deriving DecidableEq, Repr

/-- An exception value: its class name and its message. -/
structure Exc where
  cls : String
  msg : String
deriving DecidableEq, Repr

/-- The download metadata yt-dlp returns for a fetched source:
`id`, `ext` and the average bitrate `abr`. -/
structure DownloadInfo where
  id : String
  ext : String
  abr : Nat
deriving DecidableEq, Repr

/-- One element of the JSON array written to the results manifest.
`record` is what the code writes (`song.json` alone); `pairWithPath` is the
shape the specification describes (a record paired with a path or null). -/
inductive ManifestEntry where
  | record : String → ManifestEntry
  | pairWithPath : String → Option String → ManifestEntry
deriving DecidableEq, Repr

/-- Observable side effects of the downloader, in order of occurrence. -/
inductive Ev where
  | searchedProviders : Ev
  | fetched : String → Ev
  | converted : FPath → FPath → Ev
  | wroteReport : FPath → Ev
  | mkdirParent : FPath → Ev
  | deleted : FPath → Ev
  | moved : FPath → FPath → Ev
  | embedded : FPath → Ev
  | skipped : Ev
  | notifiedError : String → Ev
  | savedArchive : List String → Ev
  | savedM3u : List String → Ev
  | savedManifest : List ManifestEntry → Ev
deriving DecidableEq, Repr

/-- Events that neither query an audio provider, fetch audio, transcode,
nor touch the disk contentfully outside the skip guarantee. -/
def evIsLocal : Ev → Bool
  | Ev.searchedProviders => false
  | Ev.fetched _ => false
  | Ev.converted _ _ => false
  | _ => true

/-- The mutable state of one `Downloader` instance together with the file
system: `self.errors`, `self.known_songs`, `self.url_archive`, the disk,
and the trace of observable effects. -/
structure DLState where
  errors : List String
  knownSongs : List (String × List FPath)
  archive : List String
  fs : FS
  trace : List Ev
deriving DecidableEq, Repr

/-- The `Downloader` settings consulted by the embedded code paths. -/
structure Settings where
  overwrite : String
  threads : Nat
  format : String
  restrict : Bool
  bitrate : Option String
  archive : Option String
  saveFile : Option String
  m3u : Option String
  sponsorBlock : Bool
deriving Repr

/-- External collaborators of the downloader whose code lives outside this
repository (spotdl.utils.search, spotdl.utils.formatter, spotdl.utils.ffmpeg,
spotdl.utils.metadata, the provider classes, yt-dlp), abstracted as oracles,
plus the ambient clock and scratch directories. -/
structure Env where
  reinitSong : Song → Except Exc Song
  lyricsProviders : List (Song → Option String)
  audioProviders : List (Song → Option String)
  stemOf : Song → String
  restrictStem : String → String
  fetch : String → Except Exc DownloadInfo
  fetchContent : Nat
  convert : FPath → FPath → Option String → Bool × Option (List (String × String))
  convContent : Nat
  partialOnFail : Bool
  embedMeta : FPath → Song → Except Exc Unit
  unlinkOk : FPath → Bool
  sponsorFiles : List FPath
  tempFolder : String
  errorsPath : String
  nowStr : String
  now : Nat
  reportContent : Nat

/-- One configured downloader: its settings and its environment. -/
structure Ctx where
  settings : Settings
  env : Env

/-- `Downloader.search` (downloader.py lines 286-306): query each audio
provider in order, return the first hit, else raise LookupError. -/
def searchImpl : List (Song → Option String) → Song → Except Exc String
  | [], song => Except.error ⟨"LookupError", "No results found for song: " ++ song.displayName⟩
  | p :: rest, song =>
    match p song with
    | some url => Except.ok url
    | none => searchImpl rest song

/-- `Downloader.search_lyrics` (downloader.py lines 308-332): query each
lyrics provider in order, first non-empty result wins, else None. -/
def searchLyricsImpl : List (Song → Option String) → Song → Option String
  | [], _ => none
  | p :: rest, song =>
    match p song with
    | some l => some l
    | none => searchLyricsImpl rest song

/-- `self.known_songs.get(url, [])`. -/
def lookupKnown (ks : List (String × List FPath)) (url : String) : List FPath :=
  match ks.find? (fun e => e.1 = url) with
  | some e => e.2
  | none => []

/-- `self.known_songs.get(song.url, []).append(output_file)` (downloader.py
line 630).  When the key is present, `dict.get` returns the stored list
object and the append lands in the dictionary; when it is absent, the
append mutates the freshly created default list, which is then discarded,
so the dictionary is left unchanged. -/
def knownSongsAppend (ks : List (String × List FPath)) (url : String) (p : FPath) :
    List (String × List FPath) :=
  if (ks.find? (fun e => e.1 = url)).isSome then
    ks.map (fun e => if e.1 = url then (e.1, e.2 ++ [p]) else e)
  else ks

/-- Python's `max(paths, key=mtime)`: fold keeping the first element whose
key is strictly greater than the running maximum. -/
def pyMaxBy (key : FPath → Nat) : FPath → List FPath → FPath
  | best, [] => best
  | best, p :: rest => pyMaxBy key (if key p > key best then p else best) rest

/-- `path.stat().st_mtime` (only consulted on existing files). -/
def mtimeOf (fs : FS) (p : FPath) : Nat :=
  match fs.lookup p with
  | some i => i.mtime
  | none => 0

/-- Steps 1-2 of the pipeline (downloader.py lines 352-364): re-resolve a
placeholder song via `reinit_song` (its exception, if any, escapes
`search_and_download` untouched) and attach lyrics if any provider finds
them. -/
def preparedSong (c : Ctx) (song0 : Song) : Except Exc Song :=
  match (if song0.name = none ∧ song0.url ≠ "" then c.env.reinitSong song0 else Except.ok song0) with
  | Except.error e => Except.error e
  | Except.ok song1 =>
    Except.ok
      (match searchLyricsImpl c.env.lyricsProviders song1 with
       | none => song1
       | some l => { song1 with lyrics := some l })

/-- `create_file_name(song, output, format)` then the optional
`restrict_filename` (downloader.py lines 369-377); the produced suffix is
always the configured format. -/
def outputFileFor (c : Ctx) (song : Song) : FPath :=
  if c.settings.restrict then
    ⟨c.env.restrictStem (c.env.stemOf song), c.settings.format⟩
  else
    ⟨c.env.stemOf song, c.settings.format⟩

/-- Duplicate candidates (downloader.py lines 381-389): known paths for the
song's URL that differ from the output file and still exist. -/
def dupPathsFor (c : Ctx) (st : DLState) (song : Song) : List FPath :=
  (lookupKnown st.knownSongs song.url).filter
    (fun p => p ≠ outputFileFor c song ∧ st.fs.existsFile p)

/-- The overwrite=force deletion loop (downloader.py lines 417-427):
unlink each duplicate, logging and continuing when a deletion fails. -/
def unlinkAll (env : Env) (st : DLState) : List FPath → DLState
  | [] => st
  | p :: rest =>
    if env.unlinkOk p then
      unlinkAll env { st with fs := st.fs.unlink p, trace := st.trace ++ [Ev.deleted p] } rest
    else unlinkAll env st rest

/-- The overwrite=metadata deletion loop (downloader.py lines 443-455):
unlink every duplicate except the chosen most-recent one, logging and
continuing when a deletion fails. -/
def unlinkAllExcept (env : Env) (keep : FPath) (st : DLState) : List FPath → DLState
  | [] => st
  | p :: rest =>
    if p = keep then unlinkAllExcept env keep st rest
    else if env.unlinkOk p then
      unlinkAllExcept env keep
        { st with fs := st.fs.unlink p, trace := st.trace ++ [Ev.deleted p] } rest
    else unlinkAllExcept env keep st rest

/-- The file the metadata branch keeps: the most-recently-modified
duplicate, or the canonical output file when there are no duplicates. -/
def metadataChosen (fs : FS) (out : FPath) : List FPath → FPath
  | [] => out
  | d :: rest => pyMaxBy (fun p => mtimeOf fs p) d rest

/-- The overwrite=metadata branch (downloader.py lines 431-475): pick the
most recent duplicate, drop the others, move it onto the canonical path,
re-embed metadata (an embedding exception escapes, this statement is
outside the try block), and return the canonical path. -/
def metadataBranch (c : Ctx) (st : DLState) (song : Song) (outputFile : FPath)
    (dups : List FPath) : DLState × Except Exc (Song × Option FPath) :=
  let moved : DLState :=
    match dups with
    | [] => st
    | d :: rest =>
      let mrd := pyMaxBy (fun p => mtimeOf st.fs p) d rest
      let st1 := unlinkAllExcept c.env mrd st dups
      { st1 with
          fs := st1.fs.replace mrd (outputFile.withSuffix c.settings.format),
          trace := st1.trace ++ [Ev.moved mrd (outputFile.withSuffix c.settings.format)] }
  match c.env.embedMeta outputFile song with
  | Except.error e => (moved, Except.error e)
  | Except.ok _ =>
    ({ moved with trace := moved.trace ++ [Ev.embedded outputFile] },
     Except.ok (song, some outputFile))

/-- The temporary download target
`temp_folder / (download_info.id + "." + download_info.ext)`. -/
def tempFileFor (c : Ctx) (info : DownloadInfo) : FPath :=
  ⟨c.env.tempFolder ++ "/" ++ info.id, info.ext⟩

/-- The bitrate policy (downloader.py lines 523-530): "disable" drops the
bitrate, "auto" or unset derives it from the source average bitrate, any
explicit value passes through. -/
def bitrateFor (c : Ctx) (info : DownloadInfo) : Option String :=
  match c.settings.bitrate with
  | none => some (toString info.abr ++ "k")
  | some b =>
    if b = "disable" then none
    else if b = "auto" then some (toString info.abr ++ "k")
    else some b

/-- The timestamped ffmpeg diagnostic report path
`get_errors_path() / ("ffmpeg_error_" + timestamp + ".txt")`. -/
def ffmpegReportPath (c : Ctx) : FPath :=
  ⟨c.env.errorsPath ++ "/ffmpeg_error_" ++ c.env.nowStr, "txt"⟩

/-- The FFmpegError raised after a failed conversion (downloader.py lines
576-579); its message ends with the rendered report path. -/
def ffmpegErrorExc (c : Ctx) (song : Song) : Exc :=
  ⟨"FFmpegError",
    ("Failed to convert " ++ song.displayName ++ ", you can find error here: ")
      ++ FPath.toStr (ffmpegReportPath c)⟩

/-- Truthiness of the `result` diagnostics dict from `convert`. -/
def resultTruthy : Option (List (String × String)) → Bool
  | none => false
  | some l => !l.isEmpty

/-- The unguarded `Path(file).unlink()` loop of the sponsor-block
post-processing (downloader.py lines 616-618). -/
def unlinkForced (st : DLState) : List FPath → DLState
  | [] => st
  | p :: rest =>
    unlinkForced { st with fs := st.fs.unlink p, trace := st.trace ++ [Ev.deleted p] } rest

/-- The error-list entry `f"{song.url} - {type}: {message}"` appended at
the unit-of-work boundary (downloader.py lines 649-651). -/
def errorEntry (url : String) (e : Exc) : String :=
  url ++ " - " ++ e.cls ++ ": " ++ e.msg

/-- The handling of UnicodeEncodeError in the boundary handler
(downloader.py lines 638-644): replace it by a DownloaderError with a
remediation hint; every other exception is recorded as-is. -/
def wrapCaught (e : Exc) : Exc :=
  if e.cls = "UnicodeEncodeError" then
    ⟨"DownloaderError", "You may need to add PYTHONIOENCODING=utf-8 to your environment"⟩
  else e

/-- The body of the try block of `Downloader.search_and_download`
(downloader.py lines 480-636): resolve a download source, fetch, convert,
clean up the temporary file, optionally strip sponsor segments, embed
metadata and register the output.  The returned song carries the mutations
performed so far (`song.download_url`); `Except.error` is an exception
raised inside the block, to be caught at the unit-of-work boundary.
The `if download_info is None` check of lines 512-519 is dead code (the
dictionary is subscripted on line 509 before the check) and has no
counterpart here; fetch failures surface as exceptions instead. -/
def tryBody (c : Ctx) (st : DLState) (song : Song) (outputFile : FPath) :
    DLState × Song × Except Exc Unit :=
  let searched :=
    match song.downloadUrl with
    | some u => (st, Except.ok u)
    | none =>
      ({ st with trace := st.trace ++ [Ev.searchedProviders] },
       searchImpl c.env.audioProviders song)
  match searched with
  | (stA, Except.error e) => (stA, song, Except.error e)
  | (stA, Except.ok downloadUrl) =>
    let stB := { stA with trace := stA.trace ++ [Ev.fetched downloadUrl] }
    match c.env.fetch downloadUrl with
    | Except.error e => (stB, song, Except.error e)
    | Except.ok info =>
      let tempFile := tempFileFor c info
      let stC := { stB with fs := stB.fs.write tempFile ⟨c.env.fetchContent, c.env.now⟩ }
      let conv := c.env.convert tempFile outputFile (bitrateFor c info)
      let fs2 :=
        if conv.1 || c.env.partialOnFail then
          stC.fs.write outputFile ⟨c.env.convContent, c.env.now⟩
        else stC.fs
      let stD := { stC with fs := fs2, trace := stC.trace ++ [Ev.converted tempFile outputFile] }
      let cleanup : DLState × Option Exc :=
        if stD.fs.existsFile tempFile then
          if c.env.unlinkOk tempFile then
            ({ stD with fs := stD.fs.unlink tempFile, trace := stD.trace ++ [Ev.deleted tempFile] },
             none)
          else
            (stD,
             some ⟨"DownloaderError",
               ("Could not remove temp file: " ++ FPath.toStr tempFile)
                 ++ ", possible duplicate song"⟩)
        else (stD, none)
      match cleanup with
      | (stE, some e) => (stE, song, Except.error e)
      | (stE, none) =>
        if !conv.1 && resultTruthy conv.2 then
          let reportPath := ffmpegReportPath c
          let stF := { stE with
              fs := stE.fs.write reportPath ⟨c.env.reportContent, c.env.now⟩,
              trace := stE.trace ++ [Ev.wroteReport reportPath] }
          let stG :=
            if stF.fs.existsFile outputFile then
              { stF with fs := stF.fs.unlink outputFile,
                         trace := stF.trace ++ [Ev.deleted outputFile] }
            else stF
          (stG, song, Except.error (ffmpegErrorExc c song))
        else
          let song1 :=
            match song.downloadUrl with
            | none => { song with downloadUrl := some downloadUrl }
            | some _ => song
          let stH := if c.settings.sponsorBlock then unlinkForced stE c.env.sponsorFiles else stE
          match c.env.embedMeta outputFile song1 with
          | Except.error _ =>
            (stH, song1, Except.error ⟨"MetadataError", "Failed to embed metadata to the song"⟩)
          | Except.ok _ =>
            ({ stH with
                knownSongs := knownSongsAppend stH.knownSongs song1.url outputFile,
                trace := stH.trace ++ [Ev.embedded outputFile] },
             song1, Except.ok ())

/-- The try/except unit-of-work boundary wrapped around the download phase
(downloader.py lines 480-652): a successful body returns the output path, a
raised exception is recorded as one error-list entry and turned into
`(song, None)`.  No exception escapes this wrapper. -/
def downloadPhase (c : Ctx) (st : DLState) (song : Song) (outputFile : FPath) :
    DLState × Except Exc (Song × Option FPath) :=
  match tryBody c st song outputFile with
  | (st1, song1, Except.ok _) => (st1, Except.ok (song1, some outputFile))
  | (st1, song1, Except.error e) =>
    let e1 := wrapCaught e
    ({ st1 with
        errors := st1.errors ++ [errorEntry song1.url e1],
        trace := st1.trace ++ [Ev.notifiedError e1.cls] },
     Except.ok (song1, none))

/-- `Downloader.search_and_download` (downloader.py lines 334-652).
`Except.error` in the second component is an exception that escaped the
function (everything before line 480 runs outside the try block). -/
def searchAndDownload (c : Ctx) (st : DLState) (song0 : Song) :
    DLState × Except Exc (Song × Option FPath) :=
  match preparedSong c song0 with
  | Except.error e => (st, Except.error e)
  | Except.ok song =>
    let outputFile := outputFileFor c song
    let dups := dupPathsFor c st song
    let hit : Bool := st.fs.existsFile outputFile || !dups.isEmpty
    if hit ∧ c.settings.overwrite = "skip" then
      ({ st with trace := st.trace ++ [Ev.skipped] }, Except.ok (song, none))
    else
      let st1 := if hit ∧ c.settings.overwrite = "force" then unlinkAll c.env st dups else st
      if hit ∧ c.settings.overwrite = "metadata" then
        metadataBranch c st1 song outputFile dups
      else
        let st2 := { st1 with trace := st1.trace ++ [Ev.mkdirParent outputFile] }
        downloadPhase c st2 song outputFile

/-- The archive pre-filter of `Downloader.download_multiple_songs`
(downloader.py lines 219-220): when an archive is configured, songs whose
URL is already archived are dropped before any task is created. -/
def scheduledSongs (c : Ctx) (st : DLState) (songs : List Song) : List Song :=
  if c.settings.archive.isSome then
    songs.filter (fun s => ¬ st.archive.contains s.url)
  else songs

/-- `asyncio.gather` over the per-song tasks (downloader.py lines 225-228):
results come back in task order; the first exception escaping a task
propagates out of the batch.  The per-task pipelines share the downloader
state, which the model threads left to right. -/
def downloadList (c : Ctx) (st : DLState) :
    List Song → Except Exc (DLState × List (Song × Option FPath))
  | [] => Except.ok (st, [])
  | s :: rest =>
    match searchAndDownload c st s with
    | (_, Except.error e) => Except.error e
    | (st1, Except.ok r) =>
      match downloadList c st1 rest with
      | Except.error e => Except.error e
      | Except.ok (st2, rs) => Except.ok (st2, r :: rs)

/-- The archive update after the batch (downloader.py lines 236-241): add
the URL of every result with a non-None path. -/
def archiveAddSuccesses (arch : List String) : List (Song × Option FPath) → List String
  | [] => arch
  | r :: rest =>
    archiveAddSuccesses
      (if r.2.isSome then (if arch.contains r.1.url then arch else arch ++ [r.1.url]) else arch)
      rest

/-- What `json.dump([song.json for song, _ in results], save_file, ...)`
(downloader.py line 257) serializes: the bare song records, one per result,
with the output paths discarded. -/
def writtenManifest (results : List (Song × Option FPath)) : List ManifestEntry :=
  results.map (fun r => ManifestEntry.record r.1.json)

/-- Modelled from the spec: "Results Manifest (produced, optional): JSON
array of resolved Track records paired with final output paths (null for
failures)" — the shape the specification claims for the save file, used to
compare against `writtenManifest`. -/
def manifestSpec (results : List (Song × Option FPath)) : List ManifestEntry :=
  results.map (fun r => ManifestEntry.pairWithPath r.1.json (r.2.map FPath.toStr))

/-- `Downloader.download_multiple_songs` (downloader.py lines 206-259):
filter by archive, run all tasks, then persist the archive, the m3u file
and the results manifest when configured. -/
def download_multiple_songs (c : Ctx) (st : DLState) (songs : List Song) :
    Except Exc (DLState × List (Song × Option FPath)) :=
  match downloadList c st (scheduledSongs c st songs) with
  | Except.error e => Except.error e
  | Except.ok (st1, results) =>
    let st2 :=
      if c.settings.archive.isSome then
        let arch := archiveAddSuccesses st1.archive results
        { st1 with archive := arch, trace := st1.trace ++ [Ev.savedArchive arch] }
      else st1
    let st3 :=
      if c.settings.m3u.isSome then
        { st2 with trace := st2.trace ++ [Ev.savedM3u (results.map (fun r => r.1.url))] }
      else st2
    let st4 :=
      if c.settings.saveFile.isSome then
        { st3 with trace := st3.trace ++ [Ev.savedManifest (writtenManifest results)] }
      else st3
    Except.ok (st4, results)

/-- Abstract scheduler state for the asyncio semaphore of
`Downloader.__init__` (downloader.py line 132) gating
`Downloader.pool_download` (lines 261-284): how many units of work are
still waiting on the semaphore, how many hold it (and hence may be running
their downloading/converting phases), and how many have finished. -/
structure SemState where
  waiting : Nat
  active : Nat
  finished : Nat
deriving DecidableEq, Repr

/-- Semantics of `async with self.semaphore` around
`run_in_executor(self.thread_executor, self.search_and_download, song)`:
a waiting task may start only while fewer than `k` tasks hold the
semaphore; a started task runs its pipeline to completion and then
releases its slot.  `k` is `settings["threads"]`. -/
inductive PoolStep (k : Nat) : SemState → SemState → Prop
  | acquire (w a f : Nat) : a < k → PoolStep k ⟨w + 1, a, f⟩ ⟨w, a + 1, f⟩
  | release (w a f : Nat) : PoolStep k ⟨w, a + 1, f⟩ ⟨w, a, f + 1⟩

/-- States reachable from the initial batch of `n` scheduled tasks, none
started (downloader.py line 225 creates all tasks before gathering). -/
inductive PoolReachable (k n : Nat) : SemState → Prop
  | init : PoolReachable k n ⟨n, 0, 0⟩
  | step (s s' : SemState) :
      PoolReachable k n s → PoolStep k s s' → PoolReachable k n s'

/-- `SongObj.__init__` state (songObj.py lines 15-20): the three raw
Spotify payloads, the resolved YouTube link and the lyrics.  Only the
payload fields that the embedded getters read are modelled; album and
artist payloads share a type because `from_dump` stores the album payload
in the artist slot. -/
structure ArtistRef where
  name : String
deriving DecidableEq, Repr

/-- The slice of the raw Spotify track payload read by the embedded
getters: the stable track identifier, the title, and the contributing
artist entries. -/
structure RawTrackMeta where
  id : String
  name : String
  artists : List ArtistRef
deriving DecidableEq, Repr

/-- The slice of the raw album/artist payloads read by `get_genres`. -/
structure GenreMeta where
  genres : List String
deriving DecidableEq, Repr

structure SongObj where
  rawTrackMeta : RawTrackMeta
  rawAlbumMeta : GenreMeta
  rawArtistMeta : GenreMeta
  youtubeLink : Option String
  lyrics : String
deriving DecidableEq, Repr

/-- The dictionary written to a tracking file, keyed exactly as
`get_data_dump` builds it (songObj.py lines 245-251). -/
structure DataDump where
  youtubeLink : Option String
  rawTrackMeta : RawTrackMeta
  rawAlbumMeta : GenreMeta
  rawArtistMeta : GenreMeta
  lyrics : String
deriving DecidableEq, Repr

/-- `SongObj.get_data_dump` (songObj.py lines 230-251). -/
def SongObj.get_data_dump (s : SongObj) : DataDump :=
  ⟨s.youtubeLink, s.rawTrackMeta, s.rawAlbumMeta, s.rawArtistMeta, s.lyrics⟩

/-- `SongObj.from_dump` (songObj.py lines 82-94); the identical
module-level `from_dump` lives in songGatherer.py lines 112-119.  Note the
artist slot is loaded from `dataDump['rawAlbumMeta']`, exactly as in the
source. -/
def SongObj.from_dump (d : DataDump) : SongObj :=
  { rawTrackMeta := d.rawTrackMeta
    rawAlbumMeta := d.rawAlbumMeta
    rawArtistMeta := d.rawAlbumMeta
    youtubeLink := d.youtubeLink
    lyrics := d.lyrics }

/-- `SongObj.get_song_name` (songObj.py lines 112-117). -/
def SongObj.get_song_name (s : SongObj) : String :=
  s.rawTrackMeta.name

/-- `SongObj.get_contributing_artists` (songObj.py lines 147-164). -/
def SongObj.get_contributing_artists (s : SongObj) : List String :=
  s.rawTrackMeta.artists.map (fun a => a.name)

/-- `SongObj.get_genres` (songObj.py lines 129-136), kept to document
which getters depend on the artist payload. -/
def SongObj.get_genres (s : SongObj) : List String :=
  s.rawAlbumMeta.genres ++ s.rawArtistMeta.genres

/-- The empty downloader state: no recorded errors, no known songs, an
empty archive, an empty disk, no trace. -/
def st0 : DLState :=
  ⟨[], [], [], ⟨[]⟩, []⟩

/-- A fully resolved song whose download source is already cached. -/
def song1 : Song :=
  ⟨"url1", some ("Song One"), ["Artist"], some ("dl1"), none, "Artist - Song One", "rec1"⟩

/-- A happy-path environment: every oracle succeeds. -/
def env1 : Env :=
  { reinitSong := fun s => Except.ok s
    lyricsProviders := []
    audioProviders := [fun _ => some ("yt1")]
    stemOf := fun s => "out/" ++ s.url
    restrictStem := fun s => s
    fetch := fun _ => Except.ok ⟨"vid", "webm", 128⟩
    fetchContent := 1
    convert := fun _ _ _ => (true, none)
    convContent := 2
    partialOnFail := false
    embedMeta := fun _ _ => Except.ok ()
    unlinkOk := fun _ => true
    sponsorFiles := []
    tempFolder := "tmp"
    errorsPath := "errs"
    nowStr := "20261012"
    now := 10
    reportContent := 3 }

/-- Baseline settings: no archive, no manifest, no m3u, format mp3. -/
def settings1 : Settings :=
  { overwrite := "skip"
    threads := 4
    format := "mp3"
    restrict := false
    bitrate := none
    archive := none
    saveFile := none
    m3u := none
    sponsorBlock := false }

/-- Happy-path context. -/
def ctx1 : Ctx :=
  ⟨settings1, env1⟩

theorem pyMaxBy_mem (key : FPath → Nat) (b : FPath) (l : List FPath) :
    pyMaxBy key b l = b ∨ pyMaxBy key b l ∈ l := by
  induction l generalizing b with
  | nil => simp [pyMaxBy]
  | cons p rest ih =>
    simp only [pyMaxBy]
    rcases ih (if key p > key b then p else b) with h | h
    · by_cases hc : key p > key b
      · right; rw [h]; simp [hc]
      · left; rw [h]; simp [hc]
    · right; exact List.mem_cons_of_mem _ h

theorem pyMaxBy_le (key : FPath → Nat) (b : FPath) (l : List FPath) :
    ∀ x, (x = b ∨ x ∈ l) → key x ≤ key (pyMaxBy key b l) := by
  induction l generalizing b with
  | nil =>
    intro x hx
    rcases hx with rfl | hx
    · simp [pyMaxBy]
    · cases hx
  | cons p rest ih =>
    intro x hx
    simp only [pyMaxBy]
    have hstep : ∀ y, (y = p ∨ y = b) → key y ≤ key (if key p > key b then p else b) := by
      intro y hy
      by_cases hc : key p > key b <;> rcases hy with rfl | rfl <;> simp [hc] <;> omega
    rcases hx with rfl | hx
    · exact le_trans (hstep x (Or.inr rfl)) (ih _ _ (Or.inl rfl))
    · rcases List.mem_cons.mp hx with rfl | hx
      · exact le_trans (hstep x (Or.inl rfl)) (ih _ _ (Or.inl rfl))
      · exact ih _ x (Or.inr hx)

theorem unlinkAllExcept_spec (env : Env) (keep : FPath) (l : List FPath)
    (hunl : ∀ p, env.unlinkOk p = true) :
    ∀ st : DLState,
      (unlinkAllExcept env keep st l).errors = st.errors ∧
      (unlinkAllExcept env keep st l).knownSongs = st.knownSongs ∧
      (unlinkAllExcept env keep st l).archive = st.archive ∧
      (∀ q, (unlinkAllExcept env keep st l).fs.lookup q =
        if q ∈ l ∧ q ≠ keep then none else st.fs.lookup q) ∧
      (∃ δ, (unlinkAllExcept env keep st l).trace = st.trace ++ δ ∧ δ.all evIsLocal = true) := by
  induction l with
  | nil =>
    intro st
    exact ⟨rfl, rfl, rfl, fun q => by simp [unlinkAllExcept],
      ⟨[], by simp [unlinkAllExcept], rfl⟩⟩
  | cons p rest ih =>
    intro st
    by_cases hpk : p = keep
    · subst hpk
      have hred : unlinkAllExcept env p st (p :: rest) = unlinkAllExcept env p st rest := by
        simp [unlinkAllExcept]
      rw [hred]
      have h := ih st
      refine ⟨h.1, h.2.1, h.2.2.1, ?_, h.2.2.2.2⟩
      intro q
      rw [h.2.2.2.1 q]
      by_cases hq : q = p
      · subst hq; simp
      · simp [hq]
    · have hok := hunl p
      have hred : unlinkAllExcept env keep st (p :: rest) =
          unlinkAllExcept env keep
            { st with fs := st.fs.unlink p, trace := st.trace ++ [Ev.deleted p] } rest := by
        simp [unlinkAllExcept, hpk, hok]
      rw [hred]
      have h := ih { st with fs := st.fs.unlink p, trace := st.trace ++ [Ev.deleted p] }
      refine ⟨h.1, h.2.1, h.2.2.1, ?_, ?_⟩
      · intro q
        rw [h.2.2.2.1 q]
        by_cases hq : q ∈ rest ∧ q ≠ keep
        · simp [hq, List.mem_cons.mpr (Or.inr hq.1), hq.2]
        · rw [if_neg hq]
          have hfs : ({ st with fs := st.fs.unlink p, trace := st.trace ++ [Ev.deleted p] } : DLState).fs = st.fs.unlink p := rfl
          rw [hfs, FS.lookup_unlink]
          by_cases hqp : q = p
          · subst hqp
            have hcond : q ∈ q :: rest ∧ q ≠ keep := ⟨List.mem_cons_self q rest, hpk⟩
            simp [hcond]
          · simp [hqp, hq]
      · rcases h.2.2.2.2 with ⟨δ, hδ, hall⟩
        exact ⟨Ev.deleted p :: δ, by rw [hδ]; simp, by simp [evIsLocal, hall]⟩

theorem outputFileFor_withSuffix (c : Ctx) (song : Song) :
    (outputFileFor c song).withSuffix c.settings.format = outputFileFor c song := by
  unfold outputFileFor
  split <;> rfl

theorem dupPathsFor_mem (c : Ctx) (st : DLState) (song : Song) (p : FPath)
    (h : p ∈ dupPathsFor c st song) :
    p ≠ outputFileFor c song ∧ st.fs.existsFile p = true := by
  have := List.mem_filter.mp h
  exact of_decide_eq_true this.2

theorem hit_true_of_dup (c : Ctx) (st : DLState) (song : Song)
    (hhit : st.fs.existsFile (outputFileFor c song) = true ∨ dupPathsFor c st song ≠ []) :
    (st.fs.existsFile (outputFileFor c song) || !(dupPathsFor c st song).isEmpty) = true := by
  rcases hhit with h | h
  · simp [h]
  · simp [h]

theorem sad_skip_eq (c : Ctx) (st : DLState) (song0 song : Song)
    (hprep : preparedSong c song0 = Except.ok song)
    (hov : c.settings.overwrite = "skip")
    (hhit : st.fs.existsFile (outputFileFor c song) = true ∨ dupPathsFor c st song ≠ []) :
    searchAndDownload c st song0 =
      ({ st with trace := st.trace ++ [Ev.skipped] }, Except.ok (song, none)) := by
  have hb := hit_true_of_dup c st song hhit
  simp [searchAndDownload, hprep, hb, hov]

theorem sad_metadata_eq (c : Ctx) (st : DLState) (song0 song : Song)
    (hprep : preparedSong c song0 = Except.ok song)
    (hov : c.settings.overwrite = "metadata")
    (hhit : st.fs.existsFile (outputFileFor c song) = true ∨ dupPathsFor c st song ≠ []) :
    searchAndDownload c st song0 =
      metadataBranch c st song (outputFileFor c song) (dupPathsFor c st song) := by
  have hb := hit_true_of_dup c st song hhit
  simp [searchAndDownload, hprep, hb, hov]

theorem metadataBranch_nil_eq (c : Ctx) (st : DLState) (song : Song) (out : FPath)
    (hemb : c.env.embedMeta out song = Except.ok ()) :
    metadataBranch c st song out [] =
      ({ st with trace := st.trace ++ [Ev.embedded out] }, Except.ok (song, some out)) := by
  simp [metadataBranch, hemb]

theorem metadataBranch_cons_eq (c : Ctx) (st : DLState) (song : Song) (out : FPath)
    (d : FPath) (rest : List FPath) (i : FileInfo)
    (hemb : c.env.embedMeta out song = Except.ok ())
    (hsuffix : out.withSuffix c.settings.format = out)
    (hlook : (unlinkAllExcept c.env (pyMaxBy (fun p => mtimeOf st.fs p) d rest) st
        (d :: rest)).fs.lookup (pyMaxBy (fun p => mtimeOf st.fs p) d rest) = some i) :
    metadataBranch c st song out (d :: rest) =
      ({ unlinkAllExcept c.env (pyMaxBy (fun p => mtimeOf st.fs p) d rest) st (d :: rest) with
          fs := ((unlinkAllExcept c.env (pyMaxBy (fun p => mtimeOf st.fs p) d rest) st
              (d :: rest)).fs.unlink (pyMaxBy (fun p => mtimeOf st.fs p) d rest)).write out i,
          trace := ((unlinkAllExcept c.env (pyMaxBy (fun p => mtimeOf st.fs p) d rest) st
              (d :: rest)).trace ++ [Ev.moved (pyMaxBy (fun p => mtimeOf st.fs p) d rest) out])
            ++ [Ev.embedded out] },
       Except.ok (song, some out)) := by
  simp only [metadataBranch, hsuffix, FS.replace, hlook, hemb]

/-- Claim C3: with overwrite policy "metadata", when the canonical path
exists or duplicates exist, the pipeline keeps the most-recently-modified
duplicate (or the canonical file itself when there are none), deletes every
other duplicate, moves the chosen duplicate onto the canonical path,
re-embeds metadata in place, and returns the canonical path — performing no
audio-provider search, no fetch and no transcode (the trace gains only
local events). -/
theorem C3_metadata_overwrite (c : Ctx) (st : DLState) (song0 song : Song)
    (hprep : preparedSong c song0 = Except.ok song)
    (hov : c.settings.overwrite = "metadata")
    (hhit : st.fs.existsFile (outputFileFor c song) = true ∨ dupPathsFor c st song ≠ [])
    (hunl : ∀ p, c.env.unlinkOk p = true)
    (hemb : c.env.embedMeta (outputFileFor c song) song = Except.ok ()) :
    (searchAndDownload c st song0).2 =
        Except.ok (song, some (outputFileFor c song)) ∧
    (∀ p ∈ dupPathsFor c st song,
        p ≠ metadataChosen st.fs (outputFileFor c song) (dupPathsFor c st song) →
        (searchAndDownload c st song0).1.fs.existsFile p = false) ∧
    (dupPathsFor c st song ≠ [] →
        (searchAndDownload c st song0).1.fs.lookup (outputFileFor c song) =
          st.fs.lookup (metadataChosen st.fs (outputFileFor c song) (dupPathsFor c st song))) ∧
    (∀ p ∈ dupPathsFor c st song,
        mtimeOf st.fs p ≤
          mtimeOf st.fs (metadataChosen st.fs (outputFileFor c song) (dupPathsFor c st song))) ∧
    (∃ δ, (searchAndDownload c st song0).1.trace = st.trace ++ δ ∧
        δ.all evIsLocal = true ∧ Ev.embedded (outputFileFor c song) ∈ δ) := by
  rw [sad_metadata_eq c st song0 song hprep hov hhit]
  rcases hdups : dupPathsFor c st song with _ | ⟨d, rest⟩
  · rw [metadataBranch_nil_eq c st song (outputFileFor c song) hemb]
    refine ⟨rfl, ?_, ?_, ?_, [Ev.embedded (outputFileFor c song)], rfl, ?_, ?_⟩
    · intro p hp
      cases hp
    · intro hne
      exact absurd rfl hne
    · intro p hp
      cases hp
    · simp [evIsLocal]
    · simp
  · have hchosen_mem : pyMaxBy (fun p => mtimeOf st.fs p) d rest ∈ d :: rest := by
      rcases pyMaxBy_mem (fun p => mtimeOf st.fs p) d rest with h | h
      · rw [h]; exact List.mem_cons_self d rest
      · exact List.mem_cons_of_mem d h
    have hchosen_dup := dupPathsFor_mem c st song _ (hdups ▸ hchosen_mem)
    have spec := unlinkAllExcept_spec c.env (pyMaxBy (fun p => mtimeOf st.fs p) d rest)
      (d :: rest) hunl st
    obtain ⟨i, hi⟩ : ∃ i, st.fs.lookup (pyMaxBy (fun p => mtimeOf st.fs p) d rest) = some i :=
      Option.isSome_iff_exists.mp hchosen_dup.2
    have hlook : (unlinkAllExcept c.env (pyMaxBy (fun p => mtimeOf st.fs p) d rest) st
        (d :: rest)).fs.lookup (pyMaxBy (fun p => mtimeOf st.fs p) d rest) = some i := by
      rw [spec.2.2.2.1]
      simp [hi]
    rw [metadataBranch_cons_eq c st song (outputFileFor c song) d rest i hemb
      (outputFileFor_withSuffix c song) hlook]
    have hchosen_eq : metadataChosen st.fs (outputFileFor c song) (d :: rest) =
        pyMaxBy (fun p => mtimeOf st.fs p) d rest := rfl
    refine ⟨rfl, ?_, ?_, ?_, ?_⟩
    · intro p hp hne
      rw [hchosen_eq] at hne
      have hpdup := dupPathsFor_mem c st song p (by rw [hdups]; exact hp)
      have hlp : (unlinkAllExcept c.env (pyMaxBy (fun p => mtimeOf st.fs p) d rest) st
          (d :: rest)).fs.lookup p = none := by
        rw [spec.2.2.2.1]
        simp [hp, hne]
      simp only [FS.existsFile_write, FS.lookup_unlink]
      rw [if_neg hpdup.1]
      rw [FS.existsFile_unlink, if_neg hne]
      simp [FS.existsFile, hlp]
    · intro _
      rw [hchosen_eq]
      simp only [FS.lookup_write, if_pos rfl]
      exact hi.symm
    · intro p hp
      rw [hchosen_eq]
      rcases List.mem_cons.mp hp with rfl | hmem
      · exact pyMaxBy_le (fun q => mtimeOf st.fs q) p rest p (Or.inl rfl)
      · exact pyMaxBy_le (fun q => mtimeOf st.fs q) d rest p (Or.inr hmem)
    · rcases spec.2.2.2.2 with ⟨δ0, hδ0, hall0⟩
      refine ⟨δ0 ++ [Ev.moved (pyMaxBy (fun p => mtimeOf st.fs p) d rest)
          (outputFileFor c song), Ev.embedded (outputFileFor c song)], ?_, ?_, ?_⟩
      · rw [hδ0]
        simp
      · simp [hall0, evIsLocal]
      · simp

/-- Claim C2: with overwrite policy "skip", when the canonical output file
exists or a duplicate candidate exists, `search_and_download` marks the
song skipped and returns `(song, None)`; the downloader state is unchanged
except for the skip notification, so no audio-provider search, fetch,
transcode or disk write happens. -/
theorem C2_skip_existing (c : Ctx) (st : DLState) (song0 song : Song)
    (hprep : preparedSong c song0 = Except.ok song)
    (hov : c.settings.overwrite = "skip")
    (hhit : st.fs.existsFile (outputFileFor c song) = true ∨ dupPathsFor c st song ≠ []) :
    searchAndDownload c st song0 =
      ({ st with trace := st.trace ++ [Ev.skipped] }, Except.ok (song, none)) :=
  sad_skip_eq c st song0 song hprep hov hhit

/-- Claim C1 (amended): an exception raised anywhere inside the try block
of `search_and_download` (audio-source search, fetch, transcode, temp-file
cleanup, post-processing, metadata embedding) is caught at the unit-of-work
boundary: exactly one entry recording the song's URL, the exception class
and its message is appended to the error list, and the unit returns
`(song, None)` instead of propagating.  Stages before the try block
(metadata re-resolution, lyrics lookup, the overwrite-policy branches) are
not covered; see the counterexample. -/
theorem C1_unit_boundary (c : Ctx) (st : DLState) (song : Song) (out : FPath)
    (st1 : DLState) (song1 : Song) (e : Exc)
    (h : tryBody c st song out = (st1, song1, Except.error e)) :
    downloadPhase c st song out =
      ({ st1 with
          errors := st1.errors ++ [errorEntry song1.url (wrapCaught e)],
          trace := st1.trace ++ [Ev.notifiedError (wrapCaught e).cls] },
       Except.ok (song1, none)) := by
  simp [downloadPhase, h]

/-- A placeholder song (no name yet) as read from a tracking file. -/
def song2 : Song :=
  ⟨"url2", none, [], none, none, "placeholder", "rec2"⟩

/-- An environment whose metadata re-resolution raises. -/
def envReinitFail : Env :=
  { env1 with reinitSong := fun _ => Except.error ⟨"ValueError", "bad song"⟩ }

def ctxReinitFail : Ctx :=
  ⟨settings1, envReinitFail⟩

/-- Claim C1 counterexample: a `reinit_song` failure during metadata
re-resolution happens before the try block, so `search_and_download` lets
the exception escape — the batch would abort — and no entry is appended to
the error list, contradicting the claim that errors at every stage are
caught at the unit-of-work boundary and turned into `(song, None)`. -/
theorem C1_counterexample :
    (searchAndDownload ctxReinitFail st0 song2).2 =
        Except.error ⟨"ValueError", "bad song"⟩ ∧
    (searchAndDownload ctxReinitFail st0 song2).1.errors = [] :=
  ⟨rfl, rfl⟩

/-- A song with no cached download source. -/
def song3 : Song :=
  ⟨"url3", some ("T"), ["A"], none, none, "A - T", "rec3"⟩

/-- An environment with no audio providers: the audio search inside the
try block raises LookupError. -/
def envNoAudio : Env :=
  { env1 with audioProviders := [] }

def ctxNoAudio : Ctx :=
  ⟨settings1, envNoAudio⟩

/-- Witness for C1's amended theorem at a concrete failing search. -/
theorem C1_witness :
    downloadPhase ctxNoAudio st0 song3 (outputFileFor ctxNoAudio song3) =
      ({ st0 with
          errors := [errorEntry song3.url ⟨"LookupError", "No results found for song: A - T"⟩],
          trace := [Ev.searchedProviders, Ev.notifiedError "LookupError"] },
       Except.ok (song3, none)) := by
  have h := C1_unit_boundary ctxNoAudio st0 song3 (outputFileFor ctxNoAudio song3)
    ({ st0 with trace := [Ev.searchedProviders] }) song3
    ⟨"LookupError", "No results found for song: A - T"⟩ (by rfl)
  rw [h]
  rfl

/-- Claim C6: when the transcode step reports failure (convert returns
success=False with a non-empty diagnostics map), a diagnostic report is
written under a timestamped name in the errors directory, any partial
output at the canonical path is removed, and the track fails: the recorded
error entry carries an FFmpegError whose message ends with the rendered
report path, and the unit returns `(song, None)`. -/
theorem C6_transcode_failure (c : Ctx) (st : DLState) (song : Song) (out : FPath)
    (u : String) (info : DownloadInfo) (diag : List (String × String))
    (hurl : song.downloadUrl = some u)
    (hfetch : c.env.fetch u = Except.ok info)
    (hconv : c.env.convert (tempFileFor c info) out (bitrateFor c info) = (false, some diag))
    (hdiag : diag ≠ [])
    (hunl : c.env.unlinkOk (tempFileFor c info) = true)
    (htmp : tempFileFor c info ≠ out)
    (hrp : out ≠ ffmpegReportPath c) :
    (downloadPhase c st song out).2 = Except.ok (song, none) ∧
    (downloadPhase c st song out).1.fs.existsFile (ffmpegReportPath c) = true ∧
    (downloadPhase c st song out).1.fs.existsFile out = false ∧
    (downloadPhase c st song out).1.errors =
      st.errors ++ [errorEntry song.url (ffmpegErrorExc c song)] ∧
    Ev.wroteReport (ffmpegReportPath c) ∈ (downloadPhase c st song out).1.trace ∧
    (∃ pre, (ffmpegErrorExc c song).msg = pre ++ FPath.toStr (ffmpegReportPath c)) := by
  have hwrap : wrapCaught (ffmpegErrorExc c song) = ffmpegErrorExc c song := by
    have hcls : (ffmpegErrorExc c song).cls = "FFmpegError" := rfl
    unfold wrapCaught
    rw [hcls, if_neg (by decide)]
  have hdtrue : resultTruthy (some diag) = true := by
    simp [resultTruthy, hdiag]
  have htmp2 : out ≠ tempFileFor c info := Ne.symm htmp
  have hrp2 : ffmpegReportPath c ≠ out := Ne.symm hrp
  refine ⟨?_, ?_, ?_, ?_, ?_,
    ⟨"Failed to convert " ++ song.displayName ++ ", you can find error here: ", rfl⟩⟩ <;>
  cases hp : c.env.partialOnFail <;>
  by_cases hex : st.fs.existsFile out = true <;>
  simp [downloadPhase, tryBody, hurl, hfetch, hconv, hp, hunl, hdtrue, hwrap,
    FS.existsFile_write, FS.existsFile_unlink, FS.lookup_write, FS.lookup_unlink,
    htmp, htmp2, hrp, hrp2, hex]

theorem tryBody_url (c : Ctx) (st : DLState) (song : Song) (out : FPath) :
    (tryBody c st song out).2.1.url = song.url := by
  rcases hdl : song.downloadUrl with _ | u
  · rcases hse : searchImpl c.env.audioProviders song with e | u
    · simp [tryBody, hdl, hse]
    · rcases hf : c.env.fetch u with e | info
      · simp [tryBody, hdl, hse, hf]
      · rcases hem : c.env.embedMeta out { song with downloadUrl := some u } with e | v
        · simp only [tryBody, hdl, hse, hf, hem]
          repeat' split
          all_goals rfl
        · simp only [tryBody, hdl, hse, hf, hem]
          repeat' split
          all_goals rfl
  · rcases hf : c.env.fetch u with e | info
    · simp [tryBody, hdl, hf]
    · rcases hem : c.env.embedMeta out song with e | v
      · simp only [tryBody, hdl, hf, hem]
        repeat' split
        all_goals rfl
      · simp only [tryBody, hdl, hf, hem]
        repeat' split
        all_goals rfl

theorem downloadPhase_url (c : Ctx) (st : DLState) (song : Song) (out : FPath)
    (st' : DLState) (r : Song × Option FPath)
    (h : downloadPhase c st song out = (st', Except.ok r)) : r.1.url = song.url := by
  have hu := tryBody_url c st song out
  unfold downloadPhase at h
  rcases htb : tryBody c st song out with ⟨st1, song1, res⟩
  rw [htb] at h hu
  cases res with
  | ok v =>
    simp only at h
    cases h
    exact hu
  | error e =>
    simp only at h
    cases h
    exact hu

theorem preparedSong_url (c : Ctx) (song0 song : Song)
    (hru : ∀ s s1, c.env.reinitSong s = Except.ok s1 → s1.url = s.url)
    (h : preparedSong c song0 = Except.ok song) : song.url = song0.url := by
  unfold preparedSong at h
  by_cases hc : song0.name = none ∧ song0.url ≠ ""
  · rw [if_pos hc] at h
    rcases hre : c.env.reinitSong song0 with e | s1
    · rw [hre] at h
      cases h
    · rw [hre] at h
      simp only at h
      have h1 := hru song0 s1 hre
      rcases hly : searchLyricsImpl c.env.lyricsProviders s1 with _ | l <;>
        rw [hly] at h <;> cases h <;> exact h1
  · rw [if_neg hc] at h
    simp only at h
    rcases hly : searchLyricsImpl c.env.lyricsProviders song0 with _ | l <;>
      rw [hly] at h <;> cases h <;> rfl

theorem sad_url (c : Ctx) (st : DLState) (song0 : Song)
    (st' : DLState) (r : Song × Option FPath)
    (hru : ∀ s s1, c.env.reinitSong s = Except.ok s1 → s1.url = s.url)
    (h : searchAndDownload c st song0 = (st', Except.ok r)) : r.1.url = song0.url := by
  unfold searchAndDownload at h
  rcases hp : preparedSong c song0 with e | song
  · rw [hp] at h
    cases h
  · rw [hp] at h
    simp only at h
    have hps := preparedSong_url c song0 song hru hp
    split at h
    · cases h
      exact hps
    · split at h
      · unfold metadataBranch at h
        rcases hem : c.env.embedMeta (outputFileFor c song) song with e | v <;>
          rw [hem] at h <;> simp only at h <;> cases h
        exact hps
      · have := downloadPhase_url c _ song (outputFileFor c song) st' r h
        rw [this, hps]

theorem downloadList_urls (c : Ctx)
    (hru : ∀ s s1, c.env.reinitSong s = Except.ok s1 → s1.url = s.url) :
    ∀ (l : List Song) (st st' : DLState) (rs : List (Song × Option FPath)),
      downloadList c st l = Except.ok (st', rs) →
      List.Forall₂ (fun (r : Song × Option FPath) (s : Song) => r.1.url = s.url) rs l := by
  intro l
  induction l with
  | nil =>
    intro st st' rs h
    unfold downloadList at h
    simp only [Except.ok.injEq, Prod.mk.injEq] at h
    rw [← h.2]
    exact List.Forall₂.nil
  | cons s rest ih =>
    intro st st' rs h
    unfold downloadList at h
    rcases hsd : searchAndDownload c st s with ⟨st1, res⟩
    rw [hsd] at h
    cases res with
    | error e => simp at h
    | ok r =>
      simp only at h
      rcases hdl2 : downloadList c st1 rest with e | p
      · rw [hdl2] at h
        simp at h
      · rcases p with ⟨st2, rs2⟩
        rw [hdl2] at h
        simp only [Except.ok.injEq, Prod.mk.injEq] at h
        rw [← h.2]
        exact List.Forall₂.cons (sad_url c st s st1 r hru hsd) (ih st1 st2 rs2 hdl2)

theorem dms_results_eq (c : Ctx) (st : DLState) (songs : List Song)
    (st' : DLState) (rs : List (Song × Option FPath))
    (h : download_multiple_songs c st songs = Except.ok (st', rs)) :
    ∃ st1, downloadList c st (scheduledSongs c st songs) = Except.ok (st1, rs) ∧
      (c.settings.saveFile.isSome = true →
        Ev.savedManifest (writtenManifest rs) ∈ st'.trace) := by
  unfold download_multiple_songs at h
  rcases hdl : downloadList c st (scheduledSongs c st songs) with e | p
  · rw [hdl] at h
    simp at h
  · rcases p with ⟨st1, results⟩
    rw [hdl] at h
    simp only [Except.ok.injEq, Prod.mk.injEq] at h
    obtain ⟨hst, hrs⟩ := h
    refine ⟨st1, by rw [hrs], ?_⟩
    intro hsave
    rw [← hst, ← hrs]
    simp only [hsave, if_true, if_pos]
    split <;> simp

/-- Claim C4: with an archive configured, songs whose URL is already in the
archive are removed before scheduling: the batch produces exactly one
result per song that passed the filter, and every result's song URL is
absent from the archive, so filtered songs are entirely missing from the
result list (they are not returned as `(song, None)`). -/
theorem C4_archive_filter (c : Ctx) (st : DLState) (songs : List Song)
    (st' : DLState) (rs : List (Song × Option FPath))
    (harch : c.settings.archive.isSome = true)
    (hru : ∀ s s1, c.env.reinitSong s = Except.ok s1 → s1.url = s.url)
    (h : download_multiple_songs c st songs = Except.ok (st', rs)) :
    rs.length = (songs.filter (fun s => ¬ st.archive.contains s.url)).length ∧
    ∀ r ∈ rs, st.archive.contains r.1.url = false := by
  obtain ⟨st1, hdl, _⟩ := dms_results_eq c st songs st' rs h
  have hsched : scheduledSongs c st songs =
      songs.filter (fun s => ¬ st.archive.contains s.url) := by
    unfold scheduledSongs
    rw [if_pos harch]
  rw [hsched] at hdl
  have hf := downloadList_urls c hru _ st st1 rs hdl
  refine ⟨hf.length_eq, ?_⟩
  intro r hr
  obtain ⟨n, hget⟩ := List.mem_iff_get.mp hr
  have hlen := hf.length_eq
  have hn2 : n.1 < (songs.filter (fun s => ¬ st.archive.contains s.url)).length := by
    rw [← hlen]
    exact n.2
  have hurl := (List.forall₂_iff_get.mp hf).2 n.1 n.2 hn2
  rw [hget] at hurl
  have hmem := List.get_mem (songs.filter (fun s => ¬ st.archive.contains s.url)) n.1 hn2
  have hpred := (List.mem_filter.mp hmem).2
  rw [← hurl] at hpred
  simpa using of_decide_eq_true hpred

/-- Claim C10: `download_multiple_songs` returns exactly one result pair
per scheduled (archive-filtered) song, and the result list preserves the
scheduled order: the i-th result carries the i-th scheduled song's URL,
even though `asyncio.gather` runs the pipelines concurrently. -/
theorem C10_result_order (c : Ctx) (st : DLState) (songs : List Song)
    (st' : DLState) (rs : List (Song × Option FPath))
    (hru : ∀ s s1, c.env.reinitSong s = Except.ok s1 → s1.url = s.url)
    (h : download_multiple_songs c st songs = Except.ok (st', rs)) :
    rs.length = (scheduledSongs c st songs).length ∧
    ∀ (i : Nat) (h1 : i < rs.length) (h2 : i < (scheduledSongs c st songs).length),
      (rs.get ⟨i, h1⟩).1.url = ((scheduledSongs c st songs).get ⟨i, h2⟩).url := by
  obtain ⟨st1, hdl, _⟩ := dms_results_eq c st songs st' rs h
  have hf := downloadList_urls c hru _ st st1 rs hdl
  exact ⟨hf.length_eq, (List.forall₂_iff_get.mp hf).2⟩

/-- Claim C8 (amended): when a save-file path is configured, after the
batch completes `download_multiple_songs` serializes a JSON array holding
one bare song record per result — the final output paths are discarded and
no record/path pairing (nor a null for failures) is written. -/
theorem C8_manifest_records_only (c : Ctx) (st : DLState) (songs : List Song)
    (st' : DLState) (rs : List (Song × Option FPath))
    (hsave : c.settings.saveFile.isSome = true)
    (h : download_multiple_songs c st songs = Except.ok (st', rs)) :
    Ev.savedManifest (writtenManifest rs) ∈ st'.trace := by
  obtain ⟨st1, _, hman⟩ := dms_results_eq c st songs st' rs h
  exact hman hsave

/-- Claim C5: under the semaphore semantics of `pool_download`, no
reachable scheduler state has more than `settings["threads"]` units of
work holding the semaphore, hence at most that many pipelines can be in
their downloading/converting phases simultaneously; a started unit leaves
the active set only by completing. -/
theorem C5_concurrency_bound (c : Ctx) (n : Nat) (s : SemState)
    (h : PoolReachable c.settings.threads n s) : s.active ≤ c.settings.threads := by
  induction h with
  | init => exact Nat.zero_le _
  | step s s' hr hs ih =>
    cases hs with
    | acquire w a f hlt => exact hlt
    | release w a f => exact Nat.le_of_succ_le ih

/-- Witness for C5 at a concrete reachable state: two tasks scheduled,
one started, with the configured limit of four workers. -/
theorem C5_witness : (⟨1, 1, 0⟩ : SemState).active ≤ ctx1.settings.threads :=
  C5_concurrency_bound ctx1 2 ⟨1, 1, 0⟩
    (PoolReachable.step _ _ PoolReachable.init (PoolStep.acquire 1 0 0 (by decide)))

/-- Claim C9: rebuilding a SongObj via `from_dump` from the dictionary
`get_data_dump` produces preserves the track identifier, the song name and
the contributing-artist list (all three live in `rawTrackMeta`, which
round-trips unchanged; only the artist payload slot is corrupted by the
`rawAlbumMeta` slip, affecting none of the three). -/
theorem C9_dump_roundtrip (s : SongObj) :
    (SongObj.from_dump s.get_data_dump).rawTrackMeta.id = s.rawTrackMeta.id ∧
    (SongObj.from_dump s.get_data_dump).get_song_name = s.get_song_name ∧
    (SongObj.from_dump s.get_data_dump).get_contributing_artists =
      s.get_contributing_artists :=
  ⟨rfl, rfl, rfl⟩

/-- Claim C7: evidence of the code bug.  A song whose URL has no entry in
`known_songs` completes the whole pipeline successfully (the result is the
canonical path), yet the known-files index is left unchanged and a later
lookup of the URL yields nothing: line 630's
`self.known_songs.get(song.url, []).append(output_file)` appends to a
discarded temporary list, contradicting the comment above it and the
specification's step 12. -/
theorem C7_known_songs_not_registered :
    (searchAndDownload ctx1 st0 song1).2 =
        Except.ok (song1, some ⟨"out/url1", "mp3"⟩) ∧
    (searchAndDownload ctx1 st0 song1).1.knownSongs = [] ∧
    lookupKnown (searchAndDownload ctx1 st0 song1).1.knownSongs song1.url = [] := by
  refine ⟨?_, ?_, ?_⟩ <;> rfl

/-- The canonical output path of `song1` under `ctx1`. -/
def out1 : FPath :=
  ⟨"out/url1", "mp3"⟩

/-- A state in which `song1`'s canonical output file already exists. -/
def stExisting : DLState :=
  ⟨[], [], [], ⟨[(out1, ⟨5, 3⟩)]⟩, []⟩

/-- Witness for C2 at a concrete state with an existing output file. -/
theorem C2_witness :
    searchAndDownload ctx1 stExisting song1 =
      ({ stExisting with trace := [Ev.skipped] }, Except.ok (song1, none)) := by
  have h := C2_skip_existing ctx1 stExisting song1 song1 (by rfl) rfl (Or.inl (by decide))
  rw [h]
  rfl

/-- Two duplicate files for `song1`, the second more recent. -/
def dupA : FPath :=
  ⟨"dupA", "mp3"⟩

def dupB : FPath :=
  ⟨"dupB", "mp3"⟩

/-- Metadata-overwrite settings. -/
def ctx3 : Ctx :=
  ⟨{ settings1 with overwrite := "metadata" }, env1⟩

/-- A state with two existing duplicates of `song1` and no canonical file. -/
def st3 : DLState :=
  ⟨[], [("url1", [dupA, dupB])], [], ⟨[(dupA, ⟨7, 5⟩), (dupB, ⟨8, 9⟩)]⟩, []⟩

/-- Witness for C3 at a concrete state with two duplicates: the run
succeeds with the canonical path and the older duplicate is gone. -/
theorem C3_witness :
    (searchAndDownload ctx3 st3 song1).2 =
        Except.ok (song1, some (outputFileFor ctx3 song1)) ∧
    (searchAndDownload ctx3 st3 song1).1.fs.existsFile dupA = false := by
  have h := C3_metadata_overwrite ctx3 st3 song1 song1 (by rfl) rfl
    (Or.inr (by decide)) (fun p => rfl) (by rfl)
  exact ⟨h.1, h.2.1 dupA (by decide) (by decide)⟩

/-- An environment whose transcoder always fails with diagnostics. -/
def ctx6 : Ctx :=
  ⟨settings1, { env1 with convert := fun _ _ _ => (false, some [("ffmpeg", "boom")]) }⟩

/-- Witness for C6 at a concrete failing conversion. -/
theorem C6_witness :
    (downloadPhase ctx6 st0 song1 out1).2 = Except.ok (song1, none) ∧
    (downloadPhase ctx6 st0 song1 out1).1.fs.existsFile (ffmpegReportPath ctx6) = true ∧
    (downloadPhase ctx6 st0 song1 out1).1.fs.existsFile out1 = false := by
  have h := C6_transcode_failure ctx6 st0 song1 out1 "dl1" ⟨"vid", "webm", 128⟩
    [("ffmpeg", "boom")] rfl rfl rfl (by decide) rfl (by decide) (by decide)
  exact ⟨h.1, h.2.1, h.2.2.1⟩

/-- Archive-enabled settings. -/
def ctxArch : Ctx :=
  ⟨{ settings1 with archive := some ("archive.txt") }, env1⟩

/-- A song whose URL is already archived. -/
def songA : Song :=
  ⟨"urlA", some ("A"), [], some ("dlA"), none, "A", "recA"⟩

/-- A state whose archive already contains `songA`'s URL. -/
def stArch : DLState :=
  ⟨[], [], ["urlA"], ⟨[]⟩, []⟩

/-- The outcome of the archive-filtered batch `[songA, song1]`. -/
def c4run : DLState × List (Song × Option FPath) :=
  match download_multiple_songs ctxArch stArch [songA, song1] with
  | Except.ok p => p
  | Except.error _ => (st0, [])

/-- Witness for C4 at a concrete batch where `songA` is archived. -/
theorem C4_witness :
    c4run.2.length =
        ([songA, song1].filter (fun s => ¬ stArch.archive.contains s.url)).length ∧
    ∀ r ∈ c4run.2, stArch.archive.contains r.1.url = false := by
  have hru : ∀ s s1, ctxArch.env.reinitSong s = Except.ok s1 → s1.url = s.url := by
    intro s s1 hh
    injection hh with h
    rw [← h]
  exact C4_archive_filter ctxArch stArch [songA, song1] c4run.1 c4run.2 rfl hru (by rfl)

/-- Witness for C10 at the same concrete batch. -/
theorem C10_witness :
    c4run.2.length = (scheduledSongs ctxArch stArch [songA, song1]).length ∧
    ∀ (i : Nat) (h1 : i < c4run.2.length)
      (h2 : i < (scheduledSongs ctxArch stArch [songA, song1]).length),
      (c4run.2.get ⟨i, h1⟩).1.url =
        ((scheduledSongs ctxArch stArch [songA, song1]).get ⟨i, h2⟩).url := by
  have hru : ∀ s s1, ctxArch.env.reinitSong s = Except.ok s1 → s1.url = s.url := by
    intro s s1 hh
    injection hh with h
    rw [← h]
  exact C10_result_order ctxArch stArch [songA, song1] c4run.1 c4run.2 hru (by rfl)

/-- Settings with a results-manifest path configured. -/
def ctxSave : Ctx :=
  ⟨{ settings1 with saveFile := some ("results.json") }, env1⟩

/-- The outcome of a one-song batch under `ctxSave`. -/
def c8run : DLState × List (Song × Option FPath) :=
  match download_multiple_songs ctxSave st0 [song1] with
  | Except.ok p => p
  | Except.error _ => (st0, [])

/-- Claim C8 counterexample: at a concrete successful batch with a
configured save file, the serialized manifest holds the bare song record
only; the record-paired-with-path array the claim describes is not what is
written, and the two shapes differ. -/
theorem C8_counterexample :
    download_multiple_songs ctxSave st0 [song1] = Except.ok c8run ∧
    Ev.savedManifest (writtenManifest c8run.2) ∈ c8run.1.trace ∧
    Ev.savedManifest (manifestSpec c8run.2) ∉ c8run.1.trace ∧
    writtenManifest c8run.2 ≠ manifestSpec c8run.2 := by
  refine ⟨rfl, ?_, ?_, ?_⟩ <;> decide

/-- Witness for C8's amended theorem at the same concrete batch. -/
theorem C8_witness :
    Ev.savedManifest (writtenManifest c8run.2) ∈ c8run.1.trace :=
  C8_manifest_records_only ctxSave st0 [song1] c8run.1 c8run.2 rfl (by rfl)
